import Mathlib

/-!
Shallow embedding of `.ci/validate-examples.py`, a CI checker for the
`examples/` directory tree.  Pure string manipulation is modelled over
`String` / `List Char`; every HTTP call and filesystem probe made by the
script is an oracle field of `Config`; exceptions are modelled with
`Except`.  String literals write apostrophes as the escape `\x27` and
backticks as `\x60`; they denote the very characters used by the source.
-/

set_option linter.unusedVariables false

/-! ## Python string primitives -/

/-- Model of Python `str.split(c)` for a one-character separator `c`,
over explicit character lists.  `"".split(c) = [""]`, and the result
always has (number of occurrences of `c`) + 1 pieces. -/
def splitChar (c : Char) : List Char → List (List Char)
  | [] => [[]]
  | x :: xs =>
    if x == c then [] :: splitChar c xs
    else
      match splitChar c xs with
      | [] => [[x]]
      | y :: ys => (x :: y) :: ys

/-- Model of Python `str.split(":")` on a `String`. -/
def pySplitColon (s : String) : List String :=
  (splitChar ':' s.data).map String.mk

/-- Whether `pat` occurs at the very beginning of `s` (helper for the
substring test used to model `re.search` on literal patterns). -/
def hasSubstrL (s pat : List Char) : Bool :=
  match s with
  | [] => pat.isEmpty
  | _ :: rest => pat.isPrefixOf s || hasSubstrL rest pat

/-- Model of the Python test `pat in s` / `re.search(literal, s)`. -/
def hasSubstr (s pat : String) : Bool :=
  hasSubstrL s.data pat.data

/-- Model of Python `s.startswith(pre)`. -/
def strStartsWith (s pre : String) : Bool :=
  pre.data.isPrefixOf s.data

/-- Model of Python `s.endswith(suf)`. -/
def strEndsWith (s suf : String) : Bool :=
  suf.data.isSuffixOf s.data

/-- Structural worker for Python `str.split(sep)` with a non-empty
separator; `fuel` only bounds the recursion and is always sufficient at
`s.length + 1`. -/
def pySplitOnAux (sep : List Char) : Nat → List Char → List Char → List (List Char)
  | 0, s, acc => [acc.reverse ++ s]
  | fuel + 1, s, acc =>
    match s with
    | [] => [acc.reverse]
    | c :: rest =>
      if sep.isPrefixOf (c :: rest) then
        acc.reverse :: pySplitOnAux sep fuel ((c :: rest).drop sep.length) []
      else pySplitOnAux sep fuel rest (c :: acc)

/-- Model of Python `s.split(sep)` for a non-empty separator string. -/
def pySplitOn (s sep : String) : List String :=
  (pySplitOnAux sep.data (s.data.length + 1) s.data []).map String.mk

/-- Structural worker for Python `s.replace(pat, "")` with a non-empty
pattern: drop every non-overlapping occurrence, left to right. -/
def pyReplaceDropAux (pat : List Char) : Nat → List Char → List Char
  | 0, s => s
  | fuel + 1, s =>
    match s with
    | [] => []
    | c :: rest =>
      if pat.isPrefixOf (c :: rest) then
        pyReplaceDropAux pat fuel ((c :: rest).drop pat.length)
      else c :: pyReplaceDropAux pat fuel rest

/-- Model of Python `s.replace(pat, "")` (the script only ever replaces
with the empty string) for a non-empty pattern. -/
def pyReplaceDrop (s pat : String) : String :=
  String.mk (pyReplaceDropAux pat.data (s.data.length + 1) s.data)

theorem splitChar_ne_nil (c : Char) (s : List Char) : splitChar c s ≠ [] := by
  cases s with
  | nil => simp [splitChar]
  | cons x xs =>
    simp only [splitChar]
    split
    · simp
    · split
      · simp
      · simp

theorem splitChar_not_mem (c : Char) (s : List Char) (h : c ∉ s) :
    splitChar c s = [s] := by
  induction s with
  | nil => rfl
  | cons x xs ih =>
    have hx : ¬ (x == c) = true := by
      simp only [beq_iff_eq]
      intro hxc
      exact h (by simp [hxc])
    have hxs : c ∉ xs := fun hm => h (List.mem_cons_of_mem _ hm)
    simp only [splitChar]
    rw [if_neg hx, ih hxs]

theorem splitChar_append_single (c : Char) (a b : List Char)
    (ha : c ∉ a) : splitChar c (a ++ c :: b) = a :: splitChar c b := by
  induction a with
  | nil =>
    simp [splitChar]
  | cons x xs ih =>
    have hx : ¬ (x == c) = true := by
      simp only [beq_iff_eq]
      intro hxc
      exact ha (by simp [hxc])
    have hxs : c ∉ xs := fun hm => ha (List.mem_cons_of_mem _ hm)
    simp only [List.cons_append, splitChar]
    rw [if_neg hx]
    simp only [List.append_eq] at *
    rw [ih hxs]

theorem splitChar_length (c : Char) (s : List Char) :
    (splitChar c s).length = s.countP (fun x => x == c) + 1 := by
  induction s with
  | nil => rfl
  | cons x xs ih =>
    simp only [splitChar, List.countP_cons]
    by_cases hx : (x == c) = true
    · simp [hx, ih]
    · have hne := splitChar_ne_nil c xs
      simp only [hx, if_false]
      cases hsp : splitChar c xs with
      | nil => exact absurd hsp hne
      | cons y ys =>
        simp only [List.length_cons]
        have := ih
        rw [hsp] at this
        simp only [List.length_cons] at this
        simp [hx, this]

theorem isPrefixOf_append_self (l t : List Char) : l.isPrefixOf (l ++ t) = true := by
  induction l with
  | nil => simp [List.isPrefixOf]
  | cons x xs ih => simp [List.isPrefixOf, ih]

theorem hasSubstrL_nil_pat (s : List Char) : hasSubstrL s [] = true := by
  cases s <;> simp [hasSubstrL, List.isPrefixOf]

theorem hasSubstrL_of_parts (a pat b : List Char) :
    hasSubstrL (a ++ pat ++ b) pat = true := by
  induction a with
  | nil =>
    cases pat with
    | nil => exact hasSubstrL_nil_pat b
    | cons p ps =>
      simp only [List.nil_append, List.cons_append, hasSubstrL]
      apply Bool.or_eq_true_iff.mpr
      left
      exact isPrefixOf_append_self (p :: ps) b
  | cons x xs ih =>
    cases pat with
    | nil => exact hasSubstrL_nil_pat _
    | cons p ps =>
      simp only [List.cons_append, hasSubstrL]
      apply Bool.or_eq_true_iff.mpr
      right
      exact ih

/-! ## Constants from the script header -/

def ADMIN_DIRS : List String := ["_img"]

def SATURN_DIR_NAME : String := ".saturn"

def SATURN_JSON_NAME : String := "saturn.json"

def INSTANCE_TYPE_OPTIONS_URL : String := "https://saturncloud.io/static/constants.yaml"

/-- Model of `re.search(DIRECTORY_REGEX, s)` with `DIRECTORY_REGEX =
r"^[0-9a-z\-]+$"`: every character is a digit, a lowercase ascii letter
or a dash, and the string is non-empty.  (The Python `$` also tolerates
one trailing newline; directory names with newlines are out of scope.) -/
def dirNameOk (s : String) : Bool :=
  !s.data.isEmpty &&
    s.data.all (fun c => c.isDigit || (('a' ≤ c) && (c ≤ 'z')) || c == '-')

/-- Model of `re.search(FILENAME_REGEX, s)` with `FILENAME_REGEX =
r"^[0-9A-Za-z\-\.\_]+$"`. -/
def fileNameOk (s : String) : Bool :=
  !s.data.isEmpty &&
    s.data.all (fun c =>
      c.isDigit || (('a' ≤ c) && (c ≤ 'z')) || (('A' ≤ c) && (c ≤ 'Z')) ||
        c == '-' || c == '.' || c == '_')

/-- Model of `os.path.join(a, b)` for a relative second component. -/
def joinPath (a b : String) : String := a ++ "/" ++ b

/-! ## Data model of the JSON documents -/

/-- One entry of the recipe field `git_repositories`; the validator only
asks whether the entry has a `path` key. -/
structure GitRepo where
  has_path : Bool
deriving DecidableEq

/-- A workload section (`jupyter_server` / `deployment` / `job` /
`rstudio_server`).  Per the recipe data model every workload object
carries an `instance_type`; `disk_space` may be absent. -/
structure Workload where
  instance_type : String
  has_disk_space : Bool
deriving DecidableEq

structure DaskWorker where
  instance_type : String
deriving DecidableEq

structure DaskCluster where
  num_workers : Int
  worker : DaskWorker
deriving DecidableEq

/-- A parsed `saturn.json` recipe document.  A workload field that is
`none` models a JSON `null` / absent key; a `some` models a (non-empty)
workload object, so Python truthiness of these fields coincides with
`Option.isSome`. -/
structure Recipe where
  name : String
  image_uri : String
  working_directory : String
  git_repositories : List GitRepo
  jupyter_server : Option Workload
  deployment : Option Workload
  job : Option Workload
  rstudio_server : Option Workload
  dask_cluster : Option DaskCluster
deriving DecidableEq

/-- One cell of a notebook document.  `outputs_len` is the length of the
`outputs` list (`0` when the key is absent); `execution_count` is `none`
when the key is absent or `null`. -/
structure Cell where
  cell_type : String
  source : List String
  outputs_len : Nat
  execution_count : Option Int
deriving DecidableEq

/-- One entry of a template catalog's `templates` list. -/
structure Template where
  title : String
  weight : Int
  thumbnail_image_url : String
  recipe_path : String
deriving DecidableEq

/-- Run configuration plus the oracles standing for the script's
external collaborators: the fetched JSON schema (as the predicate the
`jsonschema.validate` call decides), the fetched instance-type set, the
registry existence check, `os.path.exists` for working directories, and
the HTTP status returned when fetching a thumbnail URL. -/
structure Config where
  examplesDir : String
  skipImageCheck : Bool
  schemaOk : Recipe → Bool
  instanceTypeOptions : List String
  imageExists : Option String → String → String → Bool
  pathExists : String → Bool
  thumbnailStatus : String → Nat

/-! ## Errors -/

/-- The distinct `ValidationError`s `validate_recipe` can raise, with
their payloads; `VErr.message` renders the exact message string built at
the corresponding `raise` site. -/
inductive VErr where
  | schemaFail
  | badName (name : String)
  | imageMissing (image_name image_tag : String)
  | wdBadStart (wd : String)
  | wdBadEnd (wd example_dir : String)
  | wdNotReal (wd : String)
  | gitEmpty
  | gitMissingPath
  | badInstanceType (it : String)
  | tooManyWorkers
  | daskWorkerMismatch
  | diskSpaceRequired
deriving DecidableEq

def VErr.message : VErr → String
  | .schemaFail => "recipe does not conform to the recipe schema"
  | .badName n => "name (\x27" ++ n ++ "\x27) needs to start with example-"
  | .imageMissing n t =>
      "image \x27" ++ n ++ ":" ++ t ++ "\x27 is not available on Docker Hub."
  | .wdBadStart wd =>
      "working_directory (\x27" ++ wd ++
        "\x27) needs to start with /home/jovyan/examples/examples/"
  | .wdBadEnd wd d =>
      "working_directory (\x27" ++ wd ++ "\x27) needs to end with " ++
        "the name of the example directory: " ++ d
  | .wdNotReal wd =>
      "working_directory (\x27" ++ wd ++ "\x27) needs to point to a real path"
  | .gitEmpty => "git_repositories cannot be empty"
  | .gitMissingPath => "At least one git_repository is missing a path"
  | .badInstanceType it =>
      "instance_type (\x27" ++ it ++ "\x27) is not a valid option. " ++
        "Look at " ++ INSTANCE_TYPE_OPTIONS_URL ++ " for valid options."
  | .tooManyWorkers => "there should not be more than 3 workers per dask cluster."
  | .daskWorkerMismatch =>
      "Dask worker instance type should match the instance type " ++
        "of its attached jupyter_server or deployment"
  | .diskSpaceRequired => "disk_space is required for workspaces."

/-- Uncaught Python exceptions that can escape a validation step.  Only
`validationError` is caught by the per-example loop. -/
inductive PyExc where
  | validationError (e : VErr)
  | valueError (msg : String)
  | typeError (msg : String)
  | osError (msg : String)
deriving DecidableEq

/-! ## validate_recipe (source lines 74-152) -/

def checkSchema (cfg : Config) (r : Recipe) : Except PyExc Unit :=
  if cfg.schemaOk r then .ok () else .error (.validationError .schemaFail)

/-- Source lines 82-85: `name` must start with `"example-"`. -/
def checkName (r : Recipe) : Except PyExc Unit :=
  if strStartsWith r.name "example-" then .ok ()
  else .error (.validationError (.badName r.name))

/-- Source line 88: `image_name, image_tag = image_uri.split(":")`.
Unpacking a list of length other than two raises `ValueError`. -/
def splitImage (uri : String) : Except PyExc (String × String) :=
  match pySplitColon uri with
  | [n, t] => .ok (n, t)
  | pieces =>
      .error (.valueError
        (if pieces.length < 2 then
          "not enough values to unpack (expected 2, got " ++
            toString pieces.length ++ ")"
        else "too many values to unpack (expected 2)"))

/-- Model of Python `image_name.rsplit("/", 2)`. -/
def pyRsplitSlash2 (s : String) : List String :=
  let parts := (splitChar '/' s.data).map String.mk
  if parts.length ≤ 3 then parts
  else
    String.intercalate "/" (parts.take (parts.length - 2)) ::
      parts.drop (parts.length - 2)

/-- Source lines 89-102: unless `--skip-image-check` was given, resolve
the optional registry piece and ask the registry whether the image
exists. -/
def checkImage (cfg : Config) (image_name image_tag : String) : Except PyExc Unit :=
  if cfg.skipImageCheck then .ok ()
  else
    let image_pieces := pyRsplitSlash2 image_name
    let regRepo : Option String × String :=
      match image_pieces with
      | [a, b, c] => (some a, b ++ "/" ++ c)
      | _ => (none, image_name)
    if cfg.imageExists regRepo.1 regRepo.2 image_tag then .ok ()
    else .error (.validationError (.imageMissing image_name image_tag))

def working_dir_pre : String := "/home/jovyan/examples/examples/"

/-- Source lines 104-120: the `working_directory` checks. -/
def checkWorkingDir (cfg : Config) (r : Recipe) (example_dir : String) :
    Except PyExc Unit :=
  let wd := r.working_directory
  if !strStartsWith wd working_dir_pre then
    .error (.validationError (.wdBadStart wd))
  else
    let sfx := pyReplaceDrop wd working_dir_pre
    if sfx != example_dir then .error (.validationError (.wdBadEnd wd example_dir))
    else if !cfg.pathExists (joinPath cfg.examplesDir sfx) then
      .error (.validationError (.wdNotReal wd))
    else .ok ()

/-- Source lines 122-126: `git_repositories` must be non-empty and each
entry must carry a `path`. -/
def checkGitRepos (r : Recipe) : Except PyExc Unit :=
  if r.git_repositories.length < 1 then .error (.validationError .gitEmpty)
  else if !(r.git_repositories.all (fun repo => repo.has_path)) then
    .error (.validationError .gitMissingPath)
  else .ok ()

/-- Source line 135: `resource["instance_type"]`; subscripting `None`
raises `TypeError`. -/
def checkInstanceType (cfg : Config) (resource : Option Workload) :
    Except PyExc Unit :=
  match resource with
  | none => .error (.typeError "\x27NoneType\x27 object is not subscriptable")
  | some w =>
      if cfg.instanceTypeOptions.contains w.instance_type then .ok ()
      else .error (.validationError (.badInstanceType w.instance_type))

/-- Source lines 141-149: the `dask_cluster` checks. -/
def checkDask (r : Recipe) (resource : Option Workload) : Except PyExc Unit :=
  match r.dask_cluster with
  | none => .ok ()
  | some dc =>
      if dc.num_workers > 3 then .error (.validationError .tooManyWorkers)
      else
        match resource with
        | none => .error (.typeError "\x27NoneType\x27 object is not subscriptable")
        | some w =>
            if dc.worker.instance_type != w.instance_type then
              .error (.validationError .daskWorkerMismatch)
            else .ok ()

/-- Source lines 151-152: workspaces require `disk_space`. -/
def checkWorkspace (r : Recipe) : Except PyExc Unit :=
  match r.jupyter_server <|> r.rstudio_server with
  | none => .ok ()
  | some w => if w.has_disk_space then .ok ()
              else .error (.validationError .diskSpaceRequired)

/-- Model of `validate_recipe` (source lines 74-152), as the sequence of
its checks in source order; the first failing check determines the
raised exception.  `resource = jupyter or deployment or job or rstudio`
is modelled as the first `some` of the four fields, which agrees with
Python truthiness because workload objects are non-empty dicts. -/
def validate_recipe (cfg : Config) (r : Recipe) (example_dir : String) :
    Except PyExc Unit :=
  (checkSchema cfg r).bind (fun _ =>
  (checkName r).bind (fun _ =>
  (splitImage r.image_uri).bind (fun nt =>
  (checkImage cfg nt.1 nt.2).bind (fun _ =>
  (checkWorkingDir cfg r example_dir).bind (fun _ =>
  (checkGitRepos r).bind (fun _ =>
  (checkInstanceType cfg
      (r.jupyter_server <|> r.deployment <|> r.job <|> r.rstudio_server)).bind (fun _ =>
  (checkDask r
      (r.jupyter_server <|> r.deployment <|> r.job <|> r.rstudio_server)).bind (fun _ =>
  checkWorkspace r))))))))

/-! ## Filesystem model and glob -/

/-- Contents of a file as far as the script reads them: a notebook
(`json.loads` succeeds and yields a cell list), a recipe document, or
anything else (for which a `json.loads` by the script would fail). -/
inductive FileContent where
  | notebook (cells : List Cell)
  | recipeJson (r : Recipe)
  | plain
deriving DecidableEq

/-- A filesystem subtree: either a plain file or a directory with an
ordered child list (standing for `os.scandir` order). -/
inductive Entry where
  | file (name : String) (content : FileContent)
  | dir (name : String) (children : List Entry)

def Entry.name : Entry → String
  | .file n _ => n
  | .dir n _ => n

def isHiddenName (n : String) : Bool := strStartsWith n "."

mutual

/-- Paths (with the entry they denote) produced by
`glob.glob(base + "/**", recursive=True)` below a directory's children:
each non-hidden child followed depth-first by its own subtree; glob
skips hidden names entirely (and never descends into them). -/
def globEntrySub (base : String) (e : Entry) : List (String × Entry) :=
  match e with
  | .file n c => [(base ++ "/" ++ n, .file n c)]
  | .dir n cs => (base ++ "/" ++ n, .dir n cs) :: globChildren (base ++ "/" ++ n) cs

def globChildren (base : String) (cs : List Entry) : List (String × Entry) :=
  match cs with
  | [] => []
  | c :: rest =>
      (if isHiddenName c.name then [] else globEntrySub base c) ++
        globChildren base rest

end

/-- Model of `glob.glob(base + "/**", recursive=True)`: for a directory
the listing starts with `base ++ "/"` (the `**` matching zero
components) followed by the whole non-hidden subtree; for a plain file
the pattern matches nothing.  (Since an existing directory always
contributes its own `base ++ "/"` entry, the listing of a directory is
never empty.) -/
def globAll (base : String) : Entry → List (String × Entry)
  | .file _ _ => []
  | .dir n cs => (base ++ "/", .dir n cs) :: globChildren base cs

/-- Model of `glob.glob(base + "/**", recursive=False)`: the non-hidden
immediate children. -/
def globFirstLevel (base : String) : Entry → List (String × Entry)
  | .file _ _ => []
  | .dir _ cs =>
      (cs.filter (fun c => !isHiddenName c.name)).map
        (fun c => (base ++ "/" ++ c.name, c))

def Entry.childNamed (e : Entry) (n : String) : Option Entry :=
  match e with
  | .file _ _ => none
  | .dir _ cs => cs.find? (fun c => c.name == n)

/-- Model of `os.path.isfile(join(dir, n))` one level below `e`. -/
def hasFileNamed (e : Entry) (n : String) : Bool :=
  match e.childNamed n with
  | some (.file _ _) => true
  | _ => false

/-- Model of `os.path.isdir(join(dir, n))` one level below `e`. -/
def hasDirNamed (e : Entry) (n : String) : Bool :=
  match e.childNamed n with
  | some (.dir _ _) => true
  | _ => false

/-- Locate and read `.saturn/saturn.json` below an example directory:
`none` when `os.path.isfile` on that path is false; `some (.error _)`
when the file exists but `json.load` raises (`json.JSONDecodeError` is a
`ValueError`, uncaught by the loop); `some (.ok r)` for a parsed
recipe. -/
def readSaturnJson (e : Entry) : Option (Except PyExc Recipe) :=
  match e.childNamed SATURN_DIR_NAME with
  | some (.dir _ cs) =>
      match cs.find? (fun c => c.name == SATURN_JSON_NAME) with
      | some (.file _ (.recipeJson r)) => some (.ok r)
      | some (.file _ _) =>
          some (.error (.valueError "saturn.json is not valid JSON"))
      | _ => none
  | _ => none

/-! ## Notebook hygiene (source lines 217-252 and 330-349) -/

/-- The message of the warnings-filter lint rule (source lines 237-241). -/
def warnFilterMsg (file_name : String) : String :=
  "Found use of warnings.simplefilter() or warnings.filterwarnings() in " ++
    file_name ++ ". " ++
    "Do not filter out warnings in example notebooks. Try to fix them or " ++
    "add text explaining why they can be safely ignored."

/-- The message of the bare-`@delayed` lint rule (source lines 246-249). -/
def delayedMsg (file_name : String) : String :=
  "Found a use of \x27@delayed\x27 in " ++ file_name ++ ". " ++
    "Instead, \x27import dask\x27 and then use \x27@dask.delayed\x27."

/-- Model of `_lint_python_cell` (source lines 217-252).  The two
regexes `r".*warnings\.filter.*"` and `r"@delayed"` hold no
metacharacters besides the trivially satisfied `.*`, so `re.search`
means literal substring search on the joined source lines. -/
def _lint_python_cell (file_name : String) (code_lines : List String) : List String :=
  let code_str := String.join code_lines
  let errors : List String :=
    if hasSubstr code_str "warnings.filter" then [warnFilterMsg file_name] else []
  errors ++
    (if hasSubstr code_str "@delayed" then [delayedMsg file_name] else [])

/-- Python truthiness of `cell.get("outputs", []) or
cell.get("execution_count", None)` (source line 338). -/
def Cell.nonEmpty (c : Cell) : Bool :=
  c.outputs_len != 0 ||
    (match c.execution_count with
     | none => false
     | some n => n != 0)

/-- Source lines 336-349 for one notebook file: per-cell lint errors in
cell order, then one `non-empty cells` error when any cell is
non-empty. -/
def notebookErrors (path : String) (cells : List Cell) : List String :=
  let lintErrs := cells.foldl
    (fun acc c =>
      if c.cell_type == "code" then acc ++ _lint_python_cell path c.source else acc)
    []
  let non_empty_cells := cells.countP (fun c => c.nonEmpty)
  if non_empty_cells > 0 then
    lintErrs ++
      ["Found " ++ toString non_empty_cells ++ " non-empty cells in \x27" ++ path ++
        "\x27. Clear all outputs and re-commit this file."]
  else lintErrs

/-- Source lines 332-349 over the `.ipynb` glob matches.  Opening a
path that is not a notebook file (a directory, or a file that is not
notebook JSON) raises an uncaught exception. -/
def processNotebooks (acc : List String) : List (String × Entry) → Except PyExc (List String)
  | [] => .ok acc
  | (path, ent) :: rest =>
      match ent with
      | .file _ (.notebook cells) =>
          processNotebooks (acc ++ notebookErrors path cells) rest
      | .file _ _ =>
          .error (.valueError ("file \x27" ++ path ++ "\x27 is not notebook JSON"))
      | .dir _ _ => .error (.osError ("Is a directory: \x27" ++ path ++ "\x27"))

/-! ## Per-example loop (source lines 300-397) -/

def dirRegexMsg (examples_dir full_dir : String) : String :=
  "All directories under \x27" ++ examples_dir ++ "\x27 should be named with only " ++
    "lower alphanumeric characters and dashes. " ++
    "\x27" ++ full_dir ++ "\x60 violates this rule."

def emptyDirMsg (full_dir : String) : String :=
  "Directory \x27" ++ full_dir ++ "\x27 is empty"

def secondReadmeMsg (examples_dir fname : String) : String :=
  "Every directory two-levels below \x27" ++ examples_dir ++ "\x27 " ++
    "must have a README.md. None found for \x27" ++ fname ++ "\x27."

def allDirsMsg (fname : String) : String :=
  "[here] All directories should be named with only " ++
    "lower alphanumeric characters and dashes. " ++
    "\x27" ++ fname ++ "\x60 violates this rule."

def allFilesMsg (fname : String) : String :=
  "All files should be named with only " ++
    "alphanumeric characters, dashes, underscores, and periods. " ++
    "\x27" ++ fname ++ "\x60 violates this rule."

def readmeMsg (full_dir : String) : String :=
  "Every example must have a README.md. \x27" ++ full_dir ++ "\x27 does not."

def saturnDirMsg (full_dir : String) : String :=
  "\x27" ++ full_dir ++ "\x27 does not include a \x27" ++ SATURN_DIR_NAME ++
    "/\x27 directory"

def saturnJsonMsg (saturn_dir : String) : String :=
  "Did not find saturn.json in \x27" ++ saturn_dir ++ "\x27. This file is required."

def schemaIssuesMsg (saturn_json : String) (v : VErr) : String :=
  "\x27" ++ saturn_json ++ "\x27 has the following schema issues: " ++ v.message

/-- Source lines 319-328: for every immediate subdirectory, a README.md
must exist directly inside it. -/
def secondLevelErrs (examples_dir full_dir : String) (e : Entry) : List String :=
  (globFirstLevel full_dir e).foldl
    (fun acc p =>
      match p.2 with
      | .dir _ _ =>
          if hasFileNamed p.2 "README.md" then acc
          else acc ++ [secondReadmeMsg examples_dir p.1]
      | .file _ _ => acc)
    []

/-- Source lines 352-372: every path in the recursive listing must have
a well-formed basename; `os.path.basename(os.path.normpath(path))` is
the entry's own name; directories in `ADMIN_DIRS` are exempt. -/
def nameCheckErrs (all_files : List (String × Entry)) : List String :=
  all_files.foldl
    (fun acc p =>
      match p.2 with
      | .dir n _ =>
          if dirNameOk n || ADMIN_DIRS.contains n then acc
          else acc ++ [allDirsMsg p.1]
      | .file n _ =>
          if fileNameOk n then acc else acc ++ [allFilesMsg p.1])
    []

/-- One iteration of the per-example loop (source lines 300-397).
Returns the error strings this directory contributes, or the uncaught
exception that aborts the whole run (only `ValidationError` from
`validate_recipe` is caught). -/
def processOneExample (cfg : Config) (e : Entry) : Except PyExc (List String) :=
  let example_dir := e.name
  let full_dir := joinPath cfg.examplesDir example_dir
  if !dirNameOk example_dir then .ok [dirRegexMsg cfg.examplesDir full_dir]
  else
    let all_files := globAll full_dir e
    if all_files.length == 0 then .ok [emptyDirMsg full_dir]
    else
      let errs1 := secondLevelErrs cfg.examplesDir full_dir e
      match processNotebooks errs1
          (all_files.filter (fun p => strEndsWith p.1 ".ipynb")) with
      | .error exc => .error exc
      | .ok errs2 =>
        let errs3 := errs2 ++ nameCheckErrs all_files
        let errs4 := errs3 ++
          (if hasFileNamed e "README.md" then [] else [readmeMsg full_dir])
        let saturn_dir := joinPath full_dir SATURN_DIR_NAME
        let errs5 := errs4 ++
          (if hasDirNamed e SATURN_DIR_NAME then [] else [saturnDirMsg full_dir])
        match readSaturnJson e with
        | none => .ok (errs5 ++ [saturnJsonMsg saturn_dir])
        | some (.error exc) => .error exc
        | some (.ok recipe) =>
            match validate_recipe cfg recipe example_dir with
            | .ok _ => .ok errs5
            | .error (.validationError v) =>
                .ok (errs5 ++ [schemaIssuesMsg (joinPath saturn_dir SATURN_JSON_NAME) v])
            | .error exc => .error exc

/-! ## Template catalog checker (source lines 269-298) -/

/-- Comma-separated single-quoted items of a Python list repr. -/
def pyStrListReprAux : List String → String
  | [] => ""
  | [x] => "\x27" ++ x ++ "\x27"
  | x :: rest => "\x27" ++ x ++ "\x27" ++ ", " ++ pyStrListReprAux rest

/-- Python list repr of a list of strings, as f-string formatting of
`matches` produces it: `["a", "b"]` prints as `[\x27a\x27, \x27b\x27]`. -/
def pyStrListRepr (xs : List String) : String :=
  "[" ++ pyStrListReprAux xs ++ "]"

def thumbnailMsg (thumbnail title : String) : String :=
  "Thumbnail image (" ++ thumbnail ++ ") for " ++ title ++ " is not a valid url."

def weightMsg (weight : Int) (title : String) (matchList : List String) : String :=
  "Weight (" ++ toString weight ++ ") for \x27" ++ title ++
    "\x27 is non-unique. It matches " ++ pyStrListRepr matchList ++ "."

def templateDirMsg (example_dir title : String) : String :=
  "Example directory: \x27" ++ example_dir ++ "\x27 referenced by template: \x27" ++
    title ++ "\x27 does not exist."

/-- Python `weights[title] = weight` on an insertion-ordered dict. -/
def dictSet (d : List (String × Int)) (k : String) (v : Int) : List (String × Int) :=
  if d.any (fun p => p.1 == k) then
    d.map (fun p => if p.1 == k then (k, v) else p)
  else d ++ [(k, v)]

/-- Source line 292: `template["recipe_path"].split("examples/")[-1].split("/")[0]`. -/
def templateExampleDir (recipe_path : String) : String :=
  String.mk
    ((splitChar '/' ((pySplitOn recipe_path "examples/").getLastD "").data).headD [])

/-- Source lines 277-298, one template: the thumbnail message is
computed (source line 284) but never added to the collection — the
following statement reassigns `msg` — so only the weight-collision and
missing-directory checks contribute errors. -/
def processTemplate (cfg : Config) (example_dirs : List String)
    (weights : List (String × Int)) (t : Template) :
    List String × List (String × Int) :=
  let _thumb_msg : Option String :=
    if cfg.thumbnailStatus t.thumbnail_image_url != 200 then
      some (thumbnailMsg t.thumbnail_image_url t.title)
    else none
  let matchList := (weights.filter (fun p => p.2 == t.weight)).map (fun p => p.1)
  let errs1 : List String :=
    if matchList.isEmpty then [] else [weightMsg t.weight t.title matchList]
  let weights2 := dictSet weights t.title t.weight
  let errs2 :=
    if example_dirs.contains (templateExampleDir t.recipe_path) then errs1
    else errs1 ++ [templateDirMsg (templateExampleDir t.recipe_path) t.title]
  (errs2, weights2)

/-- One catalog file: fold the templates with the `weights` dict
starting empty (source line 274). -/
def processTemplateList (cfg : Config) (example_dirs : List String)
    (weights : List (String × Int)) : List Template → List String
  | [] => []
  | t :: ts =>
      let r := processTemplate cfg example_dirs weights t
      r.1 ++ processTemplateList cfg example_dirs r.2 ts

def processCatalog (cfg : Config) (example_dirs : List String)
    (templates : List Template) : List String :=
  processTemplateList cfg example_dirs [] templates

/-- Source lines 269-298: both catalog files in order, each with a
fresh `weights` dict. -/
def catalogPhase (cfg : Config) (example_dirs : List String)
    (catalogs : List (List Template)) : List String :=
  catalogs.foldl (fun acc ts => acc ++ processCatalog cfg example_dirs ts) []

/-! ## Error collection and report (source lines 53-71) -/

def noDirsMsg (examples_dir : String) : String :=
  "No directories found under \x27" ++ examples_dir ++ "\x27"

/-- The numbered lines of `ErrorCollection.report`, starting the counter
at `i` (the source starts it at 1 and increments per error). -/
def reportNumberedLines (i : Nat) : List String → List String
  | [] => []
  | e :: rest => (toString i ++ ". " ++ e) :: reportNumberedLines (i + 1) rest

/-- Model of `ErrorCollection.report` (source lines 64-71): the strings
passed to `print`, in order, and the argument of `sys.exit`. -/
def report (errors : List String) : List String × Nat :=
  ("\n------ check results ------\n" ::
    (toString errors.length ++ " errors found checking examples\n") ::
    reportNumberedLines 1 errors,
   errors.length)

/-! ## Main (source lines 255-399) -/

/-- Source lines 300-397: the per-example loop, threading the shared
`ERRORS` collection; an uncaught exception aborts the run. -/
def runExamples (cfg : Config) : List Entry → List String → Except PyExc (List String)
  | [], acc => .ok acc
  | e :: rest, acc =>
      match processOneExample cfg e with
      | .ok errs => runExamples cfg rest (acc ++ errs)
      | .error exc => .error exc

/-- The whole `__main__` block after the remote fetches: the empty
`listdir` check, the catalog loop, the per-example loop, and the final
report.  Returns the printed report lines and exit code, or the
uncaught exception. -/
def mainRun (cfg : Config) (catalogs : List (List Template)) (entries : List Entry) :
    Except PyExc (List String × Nat) :=
  let initial := if entries.length == 0 then [noDirsMsg cfg.examplesDir] else []
  let catErrs := catalogPhase cfg (entries.map Entry.name) catalogs
  (runExamples cfg entries (initial ++ catErrs)).map report

/-! ## Claim theorems -/

theorem reportNumberedLines_get (errors : List String) :
    ∀ (k i : Nat) (e : String), errors[i]? = some e →
      (reportNumberedLines k errors)[i]? = some (toString (k + i) ++ ". " ++ e) := by
  induction errors with
  | nil => intro k i e h; simp at h
  | cons a rest ih =>
    intro k i e h
    cases i with
    | zero =>
      simp at h
      simp [reportNumberedLines, h]
    | succ j =>
      simp only [List.getElem?_cons_succ] at h
      have := ih (k + 1) j e h
      simpa [reportNumberedLines, Nat.add_assoc, Nat.add_comm 1 j] using this

theorem reportNumberedLines_length (errors : List String) :
    ∀ k : Nat, (reportNumberedLines k errors).length = errors.length := by
  induction errors with
  | nil => intro k; rfl
  | cons a rest ih => intro k; simp [reportNumberedLines, ih]

/-- C1: after all checks complete, the report consists of a header line
showing the total error count, followed by a 1-indexed numbered list of
every recorded error in insertion order (the error at index `i` of the
collection is printed as line `i + 2` with number `i + 1`), and the
value passed to `sys.exit` — the process exit code — is the number of
recorded errors, so zero errors means exit code 0. -/
theorem report_spec (errors : List String) :
    (report errors).2 = errors.length ∧
    (report errors).1.length = errors.length + 2 ∧
    (report errors).1[1]? =
      some (toString errors.length ++ " errors found checking examples\n") ∧
    (∀ (i : Nat) (e : String), errors[i]? = some e →
      (report errors).1[i + 2]? = some (toString (i + 1) ++ ". " ++ e)) := by
  refine ⟨rfl, ?_, by simp [report], ?_⟩
  · simp [report, reportNumberedLines_length]
  · intro i e h
    have := reportNumberedLines_get errors 1 i e h
    simpa [report, Nat.add_comm 1 i] using this

/-- Closed witness for `report_spec` at a concrete error list. -/
theorem report_spec_witness :
    (report ["alpha", "beta"]).2 = 2 ∧
    (report ["alpha", "beta"]).1[3]? = some (toString 2 ++ ". " ++ "beta") :=
  ⟨(report_spec ["alpha", "beta"]).1,
   (report_spec ["alpha", "beta"]).2.2.2 1 "beta" rfl⟩

/-! ## Concrete fixtures used by closed theorems and witnesses -/

/-- A benign configuration: schema always passes, images always exist,
paths exist, but every thumbnail GET returns HTTP 404. -/
def cfgFix : Config where
  examplesDir := "examples"
  skipImageCheck := true
  schemaOk := fun _ => true
  instanceTypeOptions := ["medium"]
  imageExists := fun _ _ _ => true
  pathExists := fun _ => true
  thumbnailStatus := fun _ => 404

/-- A recipe that passes every check of `validate_recipe` under
`cfgFix`. -/
def recipeFix : Recipe where
  name := "example-foo"
  image_uri := "img:v1"
  working_directory := "/home/jovyan/examples/examples/my-example"
  git_repositories := [{ has_path := true }]
  jupyter_server := some { instance_type := "medium", has_disk_space := true }
  deployment := none
  job := none
  rstudio_server := none
  dask_cluster := none

/-- An example directory that produces no errors under `cfgFix`. -/
def exampleFix : Entry :=
  .dir "my-example"
    [.file "README.md" .plain,
     .dir ".saturn" [.file "saturn.json" (.recipeJson recipeFix)]]

/-- A catalog template whose thumbnail URL the oracle of `cfgFix`
answers with HTTP 404, and which otherwise passes every check. -/
def templateFix : Template where
  title := "t-one"
  weight := 4
  thumbnail_image_url := "https://example.invalid/a.png"
  recipe_path := "examples/my-example/.saturn/saturn.json"

/-- C2 (code bug): the thumbnail message (source line 284) is computed
but never added to the error collection — the next statement rebinds
`msg` — so a template whose `thumbnail_image_url` GET returns 404
contributes no recorded error and the run exits with code 0. -/
theorem thumbnail_error_never_recorded :
    cfgFix.thumbnailStatus templateFix.thumbnail_image_url = 404 ∧
    processCatalog cfgFix ["my-example"] [templateFix] = [] ∧
    mainRun cfgFix [[templateFix]] [exampleFix] =
      .ok (["\n------ check results ------\n",
            "0 errors found checking examples\n"], 0) := by
  refine ⟨rfl, rfl, ?_⟩
  rfl

/-- C5 (code bug): for an example directory with a valid name that
contains no files at all, `glob.glob(full_dir + "/**", recursive=True)`
still returns the directory itself (`full_dir + "/"`), so the
`len(all_files) == 0` test never fires: no `is empty` error is
recorded (the three recorded errors are the missing README, missing
`.saturn/` and missing `saturn.json` ones). -/
theorem empty_dir_error_not_fired :
    (globAll "examples/empty-example" (.dir "empty-example" [])).length = 1 ∧
    processOneExample cfgFix (.dir "empty-example" []) =
      .ok [readmeMsg "examples/empty-example",
           saturnDirMsg "examples/empty-example",
           saturnJsonMsg "examples/empty-example/.saturn"] ∧
    ([readmeMsg "examples/empty-example",
      saturnDirMsg "examples/empty-example",
      saturnJsonMsg "examples/empty-example/.saturn"].all
        (fun m => !(hasSubstr m "is empty"))) = true := by
  refine ⟨rfl, ?_, by decide⟩
  rfl

/-- C4 (counterexample): an example directory with no `.saturn/`
records TWO errors — the missing-`.saturn` error and then the
missing-`saturn.json` error — not exactly one, because the source adds
the `.saturn` error without `continue` and then also fails the
`os.path.isfile(saturn.json)` test. -/
theorem missing_saturn_dir_cex :
    processOneExample cfgFix (.dir "my-example" [.file "README.md" .plain]) =
      .ok [saturnDirMsg "examples/my-example",
           saturnJsonMsg "examples/my-example/.saturn"] := by
  rfl

/-- All entries in a glob selection are parseable notebook files. -/
def allNotebooks (l : List (String × Entry)) : Bool :=
  l.all (fun p =>
    match p.2 with
    | .file _ (.notebook _) => true
    | _ => false)

theorem processNotebooks_ok (l : List (String × Entry)) :
    ∀ acc : List String, allNotebooks l = true →
      ∃ out, processNotebooks acc l = .ok out := by
  induction l with
  | nil => intro acc _; exact ⟨acc, rfl⟩
  | cons p rest ih =>
    intro acc h
    simp only [allNotebooks, List.all_cons, Bool.and_eq_true] at h
    obtain ⟨hp, hrest⟩ := h
    match hp2 : p with
    | (path, .file n (.notebook cells)) =>
      simpa [processNotebooks] using ih (acc ++ notebookErrors path cells) hrest
    | (path, .file n (.recipeJson _)) => simp [hp2] at hp
    | (path, .file n .plain) => simp [hp2] at hp
    | (path, .dir n cs) => simp [hp2] at hp

theorem readSaturnJson_none_of_no_dir (e : Entry)
    (h : hasDirNamed e SATURN_DIR_NAME = false) : readSaturnJson e = none := by
  unfold readSaturnJson
  unfold hasDirNamed at h
  cases hc : e.childNamed SATURN_DIR_NAME with
  | none => rfl
  | some c =>
    cases c with
    | file n fc => rfl
    | dir n cs => rw [hc] at h; simp at h

/-- C4 (amended): for an example directory whose name passes the naming
check and which has no `.saturn` directory directly inside it, the loop
records the missing-`.saturn` error AND then also records the
missing-`saturn.json` error (nothing is skipped in between; only the
recipe validation is skipped), so the two errors are the final two
entries of that directory's error list. -/
theorem missing_saturn_dir_amended (cfg : Config) (name : String) (cs : List Entry)
    (h1 : dirNameOk name = true)
    (h2 : hasDirNamed (.dir name cs) SATURN_DIR_NAME = false)
    (h3 : allNotebooks
      ((globAll (joinPath cfg.examplesDir name) (.dir name cs)).filter
        (fun p => strEndsWith p.1 ".ipynb")) = true) :
    ∃ es, processOneExample cfg (.dir name cs) =
      .ok (es ++ [saturnDirMsg (joinPath cfg.examplesDir name),
                  saturnJsonMsg (joinPath (joinPath cfg.examplesDir name)
                    SATURN_DIR_NAME)]) := by
  obtain ⟨out, hout⟩ := processNotebooks_ok
    ((globAll (joinPath cfg.examplesDir name) (.dir name cs)).filter
      (fun p => strEndsWith p.1 ".ipynb"))
    (secondLevelErrs cfg.examplesDir (joinPath cfg.examplesDir name) (.dir name cs))
    h3
  refine ⟨out ++ nameCheckErrs (globAll (joinPath cfg.examplesDir name) (.dir name cs)) ++
    (if hasFileNamed (.dir name cs) "README.md" then []
     else [readmeMsg (joinPath cfg.examplesDir name)]), ?_⟩
  unfold processOneExample
  simp only [Entry.name, h1, Bool.not_true, Bool.false_eq_true, if_false, globAll,
    List.length_cons, h2, readSaturnJson_none_of_no_dir _ h2]
  rw [show ((globChildren (joinPath cfg.examplesDir name) cs).length + 1 == 0) = false
    by simp]
  simp only [Bool.false_eq_true, if_false]
  rw [show globAll (joinPath cfg.examplesDir name) (Entry.dir name cs) =
      (joinPath cfg.examplesDir name ++ "/", Entry.dir name cs) ::
        globChildren (joinPath cfg.examplesDir name) cs from rfl] at hout
  rw [hout]
  simp [List.append_assoc]

/-- Closed witness for `missing_saturn_dir_amended`. -/
theorem missing_saturn_dir_amended_witness :
    ∃ es, processOneExample cfgFix (.dir "my-example" [.file "README.md" .plain]) =
      .ok (es ++ [saturnDirMsg (joinPath cfgFix.examplesDir "my-example"),
                  saturnJsonMsg (joinPath (joinPath cfgFix.examplesDir "my-example")
                    SATURN_DIR_NAME)]) :=
  missing_saturn_dir_amended cfgFix "my-example" [.file "README.md" .plain]
    (by decide) (by decide) (by decide)

theorem splitImage_not_two (uri : String)
    (h : (pySplitColon uri).length ≠ 2) :
    ∃ m, splitImage uri = .error (.valueError m) := by
  unfold splitImage
  rcases hp : pySplitColon uri with _ | ⟨x, _ | ⟨y, _ | ⟨z, rest⟩⟩⟩
  · exact ⟨_, rfl⟩
  · exact ⟨_, rfl⟩
  · rw [hp] at h; simp at h
  · exact ⟨_, rfl⟩

/-- If the schema and name checks pass but `image_uri` does not split
into exactly two pieces on `:`, `validate_recipe` raises `ValueError`,
whatever the value of `--skip-image-check` (the split at source line 88
happens before the flag is consulted at line 89). -/
theorem validate_recipe_valueError (cfg : Config) (r : Recipe) (d : String)
    (h1 : cfg.schemaOk r = true)
    (h2 : strStartsWith r.name "example-" = true)
    (h3 : (pySplitColon r.image_uri).length ≠ 2) :
    ∃ m, validate_recipe cfg r d = .error (.valueError m) := by
  obtain ⟨m, hm⟩ := splitImage_not_two r.image_uri h3
  refine ⟨m, ?_⟩
  unfold validate_recipe
  simp [checkSchema, checkName, h1, h2, hm, Except.bind]

/-- When the per-example loop reaches `validate_recipe` (valid name,
readable notebooks, a readable `saturn.json`), its outcome decides the
directory's result exactly as source lines 392-397 do: `ok` and
`ValidationError` are collected, any other exception propagates. -/
theorem processOneExample_validate_case (cfg : Config) (name : String)
    (cs : List Entry) (r : Recipe)
    (h1 : dirNameOk name = true)
    (h2 : allNotebooks
      ((globAll (joinPath cfg.examplesDir name) (.dir name cs)).filter
        (fun p => strEndsWith p.1 ".ipynb")) = true)
    (h3 : readSaturnJson (.dir name cs) = some (.ok r)) :
    ∃ es, processOneExample cfg (.dir name cs) =
      (match validate_recipe cfg r name with
       | .ok _ => .ok es
       | .error (.validationError v) =>
           .ok (es ++ [schemaIssuesMsg
             (joinPath (joinPath (joinPath cfg.examplesDir name) SATURN_DIR_NAME)
               SATURN_JSON_NAME) v])
       | .error exc => .error exc) := by
  obtain ⟨out, hout⟩ := processNotebooks_ok
    ((globAll (joinPath cfg.examplesDir name) (.dir name cs)).filter
      (fun p => strEndsWith p.1 ".ipynb"))
    (secondLevelErrs cfg.examplesDir (joinPath cfg.examplesDir name) (.dir name cs))
    h2
  refine ⟨(out ++ nameCheckErrs (globAll (joinPath cfg.examplesDir name) (.dir name cs)) ++
    (if hasFileNamed (.dir name cs) "README.md" then []
     else [readmeMsg (joinPath cfg.examplesDir name)])) ++
    (if hasDirNamed (.dir name cs) SATURN_DIR_NAME then []
     else [saturnDirMsg (joinPath cfg.examplesDir name)]), ?_⟩
  unfold processOneExample
  simp only [Entry.name, h1, Bool.not_true, Bool.false_eq_true, if_false, globAll,
    List.length_cons, h3]
  rw [show ((globChildren (joinPath cfg.examplesDir name) cs).length + 1 == 0) = false
    by simp]
  simp only [Bool.false_eq_true, if_false]
  rw [show globAll (joinPath cfg.examplesDir name) (Entry.dir name cs) =
      (joinPath cfg.examplesDir name ++ "/", Entry.dir name cs) ::
        globChildren (joinPath cfg.examplesDir name) cs from rfl] at hout
  rw [hout]

/-- C10: a recipe whose `image_uri` does not contain exactly one `:`
makes `validate_recipe` raise an uncaught `ValueError` from unpacking
`image_uri.split(":")` — under either value of `--skip-image-check`,
since the split precedes the flag test — and since the per-example loop
catches only `ValidationError`, the whole run aborts with that
`ValueError` instead of recording a collected error. -/
theorem image_uri_colon_aborts_run (cfg : Config) (b : Bool) (name : String)
    (cs : List Entry) (r : Recipe) (cats : List (List Template))
    (h1 : dirNameOk name = true)
    (h2 : allNotebooks
      ((globAll (joinPath cfg.examplesDir name) (.dir name cs)).filter
        (fun p => strEndsWith p.1 ".ipynb")) = true)
    (h3 : readSaturnJson (.dir name cs) = some (.ok r))
    (h4 : cfg.schemaOk r = true)
    (h5 : strStartsWith r.name "example-" = true)
    (h6 : (pySplitColon r.image_uri).length ≠ 2) :
    ∃ m, mainRun { cfg with skipImageCheck := b } cats [.dir name cs] =
      .error (.valueError m) := by
  obtain ⟨m, hm⟩ :=
    validate_recipe_valueError { cfg with skipImageCheck := b } r name h4 h5 h6
  obtain ⟨es, hes⟩ :=
    processOneExample_validate_case { cfg with skipImageCheck := b } name cs r h1 h2 h3
  rw [hm] at hes
  have hes2 : processOneExample { cfg with skipImageCheck := b } (.dir name cs) =
      .error (.valueError m) := by rw [hes]
  refine ⟨m, ?_⟩
  simp only [mainRun, runExamples, hes2, Except.map]

/-- Closed witness for `image_uri_colon_aborts_run`: a recipe whose
`image_uri` carries a registry port (two colons) aborts the run even
with the image check skipped. -/
theorem image_uri_colon_aborts_run_witness :
    ∃ m, mainRun { cfgFix with skipImageCheck := true } []
      [.dir "my-example"
        [.file "README.md" .plain,
         .dir ".saturn"
           [.file "saturn.json"
             (.recipeJson { recipeFix with
               image_uri := "registry.example.com:5000/team/img:v1" })]]] =
      .error (.valueError m) :=
  image_uri_colon_aborts_run cfgFix true "my-example"
    [.file "README.md" .plain,
     .dir ".saturn"
       [.file "saturn.json"
         (.recipeJson { recipeFix with
           image_uri := "registry.example.com:5000/team/img:v1" })]]
    { recipeFix with image_uri := "registry.example.com:5000/team/img:v1" } []
    (by decide) (by decide) rfl rfl (by decide) (by decide)

/-- Modelled from the spec wording for the image split ("split
`image_uri` on the last `:` into name and tag"): the text before and
after the final colon.  This is the behaviour the claim attributes to
the code, to be compared with `splitImage`. -/
def specSplitLastColon (s : String) : String × String :=
  let parts := pySplitColon s
  (String.intercalate ":" parts.dropLast, parts.getLastD "")

/-- C3 (counterexample): for an `image_uri` holding a registry port —
two colons — the last-colon split the claim describes is well defined,
yet `validate_recipe` does not produce that name/tag pair: the
`image_uri.split(":")` unpacking raises `ValueError`, with or without
`--skip-image-check`. -/
theorem image_split_last_colon_cex :
    specSplitLastColon "registry.example.com:5000/team/img:v1" =
      ("registry.example.com:5000/team/img", "v1") ∧
    validate_recipe { cfgFix with skipImageCheck := false }
      { recipeFix with image_uri := "registry.example.com:5000/team/img:v1" }
      "my-example" =
      .error (.valueError "too many values to unpack (expected 2)") ∧
    validate_recipe cfgFix
      { recipeFix with image_uri := "registry.example.com:5000/team/img:v1" }
      "my-example" =
      .error (.valueError "too many values to unpack (expected 2)") :=
  ⟨rfl, rfl, rfl⟩

/-- C3 (amended): `validate_recipe` splits `image_uri` on EVERY `:` and
unpacks exactly two pieces: when the uri contains exactly one colon the
name is the text before it and the tag the text after it; for any other
number of colons the unpacking raises `ValueError` instead of yielding
a name/tag pair. -/
theorem image_split_amended :
    (∀ a b : List Char, ':' ∉ a → ':' ∉ b →
      splitImage (String.mk (a ++ ':' :: b)) = .ok (String.mk a, String.mk b)) ∧
    (∀ s : List Char, s.countP (fun x => x == ':') ≠ 1 →
      ∃ m, splitImage (String.mk s) = .error (.valueError m)) := by
  constructor
  · intro a b ha hb
    unfold splitImage
    have h1 : pySplitColon (String.mk (a ++ ':' :: b)) =
        [String.mk a, String.mk b] := by
      unfold pySplitColon
      rw [show (String.mk (a ++ ':' :: b)).data = a ++ ':' :: b from rfl]
      rw [splitChar_append_single ':' a b ha, splitChar_not_mem ':' b hb]
      rfl
    rw [h1]
  · intro s h
    apply splitImage_not_two
    unfold pySplitColon
    rw [show (String.mk s).data = s from rfl]
    rw [List.length_map, splitChar_length]
    omega

/-- Closed witness for `image_split_amended`. -/
theorem image_split_amended_witness :
    splitImage (String.mk ("img".data ++ ':' :: "v1".data)) =
      .ok (String.mk "img".data, String.mk "v1".data) ∧
    ∃ m, splitImage (String.mk "a:b:c".data) = .error (.valueError m) :=
  ⟨image_split_amended.1 "img".data "v1".data (by decide) (by decide),
   image_split_amended.2 "a:b:c".data (by decide)⟩

/-- When the schema, name, image-split, image, working-directory and
git checks all pass, `validate_recipe` reduces to the workload
instance-type, dask and workspace checks. -/
theorem validate_recipe_reduce (cfg : Config) (r : Recipe) (d n t : String)
    (h1 : cfg.schemaOk r = true)
    (h2 : strStartsWith r.name "example-" = true)
    (h3 : pySplitColon r.image_uri = [n, t])
    (h4 : cfg.skipImageCheck = true)
    (h5 : strStartsWith r.working_directory working_dir_pre = true)
    (h6 : pyReplaceDrop r.working_directory working_dir_pre = d)
    (h7 : cfg.pathExists (joinPath cfg.examplesDir d) = true)
    (h8 : r.git_repositories ≠ [])
    (h9 : r.git_repositories.all (fun repo => repo.has_path) = true) :
    validate_recipe cfg r d =
      (checkInstanceType cfg
        (r.jupyter_server <|> r.deployment <|> r.job <|> r.rstudio_server)).bind
        (fun _ => (checkDask r
          (r.jupyter_server <|> r.deployment <|> r.job <|> r.rstudio_server)).bind
          (fun _ => checkWorkspace r)) := by
  have hsplit : splitImage r.image_uri = .ok (n, t) := by
    unfold splitImage
    rw [h3]
  unfold validate_recipe
  rw [show checkSchema cfg r = .ok () from by simp [checkSchema, h1]]
  simp only [Except.bind]
  rw [show checkName r = .ok () from by simp [checkName, h2]]
  simp only [Except.bind]
  rw [hsplit]
  simp only [Except.bind]
  rw [show checkImage cfg n t = .ok () from by simp [checkImage, h4]]
  simp only [Except.bind]
  rw [show checkWorkingDir cfg r d = .ok () from by
    simp [checkWorkingDir, h5, h6, h7]]
  simp only [Except.bind]
  rw [show checkGitRepos r = .ok () from by
    simp [checkGitRepos, h9, Nat.lt_one_iff, List.length_eq_zero, h8]]

/-- The checks that follow the instance-type membership test can never
produce the instance-type `ValidationError`. -/
theorem tail_ne_badInstanceType (r : Recipe) (w : Workload) (it : String) :
    (checkDask r (some w)).bind (fun _ => checkWorkspace r) ≠
      .error (.validationError (.badInstanceType it)) := by
  unfold checkDask checkWorkspace
  cases hdc : r.dask_cluster with
  | none =>
    cases hw : r.jupyter_server <|> r.rstudio_server with
    | none => simp [Except.bind]
    | some w2 => by_cases hds : w2.has_disk_space <;> simp [Except.bind, hds]
  | some dc =>
    by_cases h3 : dc.num_workers > 3
    · simp [Except.bind, h3]
    · by_cases hm : (dc.worker.instance_type != w.instance_type) = true
      · simp [Except.bind, h3, hm]
      · cases hw : r.jupyter_server <|> r.rstudio_server with
        | none => simp [Except.bind, h3, hm]
        | some w2 => by_cases hds : w2.has_disk_space <;>
            simp [Except.bind, h3, hm, hds]

/-- C6: once the earlier checks pass, the active workload is the first
non-null of `jupyter_server`, `deployment`, `job`, `rstudio_server`
(hypothesis `h10` spells out that selector), and `validate_recipe`
raises the instance-type `ValidationError` for that workload exactly
when its `instance_type` is not a member of the fetched instance-type
set. -/
theorem instance_type_check_spec (cfg : Config) (r : Recipe) (d n t : String)
    (w : Workload)
    (h1 : cfg.schemaOk r = true)
    (h2 : strStartsWith r.name "example-" = true)
    (h3 : pySplitColon r.image_uri = [n, t])
    (h4 : cfg.skipImageCheck = true)
    (h5 : strStartsWith r.working_directory working_dir_pre = true)
    (h6 : pyReplaceDrop r.working_directory working_dir_pre = d)
    (h7 : cfg.pathExists (joinPath cfg.examplesDir d) = true)
    (h8 : r.git_repositories ≠ [])
    (h9 : r.git_repositories.all (fun repo => repo.has_path) = true)
    (h10 : (r.jupyter_server <|> r.deployment <|> r.job <|> r.rstudio_server) =
      some w) :
    validate_recipe cfg r d =
        .error (.validationError (.badInstanceType w.instance_type)) ↔
      cfg.instanceTypeOptions.contains w.instance_type = false := by
  rw [validate_recipe_reduce cfg r d n t h1 h2 h3 h4 h5 h6 h7 h8 h9, h10]
  constructor
  · intro h
    by_contra hc
    rw [Bool.not_eq_false] at hc
    have hc2 : w.instance_type ∈ cfg.instanceTypeOptions := by simpa using hc
    rw [show checkInstanceType cfg (some w) = .ok () from by
      simp [checkInstanceType, hc2]] at h
    simp only [Except.bind] at h
    exact tail_ne_badInstanceType r w w.instance_type h
  · intro hc
    have hc2 : w.instance_type ∉ cfg.instanceTypeOptions := by simpa using hc
    simp [checkInstanceType, hc2, Except.bind]

/-- Closed witness for `instance_type_check_spec`: a jupyter_server
workload with an unknown instance type produces exactly the
instance-type error. -/
theorem instance_type_check_spec_witness :
    validate_recipe cfgFix
      { recipeFix with
        jupyter_server := some { instance_type := "weird", has_disk_space := true } }
      "my-example" =
      .error (.validationError (.badInstanceType "weird")) :=
  (instance_type_check_spec cfgFix
    { recipeFix with
      jupyter_server := some { instance_type := "weird", has_disk_space := true } }
    "my-example" "img" "v1" { instance_type := "weird", has_disk_space := true }
    rfl (by decide) rfl rfl (by decide) rfl rfl (by decide) (by decide) rfl).mpr rfl

/-- C8: when a recipe with otherwise passing checks carries a
`dask_cluster` whose `num_workers` exceeds 3, `validate_recipe` raises
the `ValidationError` whose message contains "should not be more than 3
workers", and it does so whatever `dask_cluster.worker` holds — the
worker instance-type equality check is never reached. -/
theorem dask_workers_spec (cfg : Config) (r : Recipe) (d n t : String)
    (w : Workload) (dc : DaskCluster)
    (h1 : cfg.schemaOk r = true)
    (h2 : strStartsWith r.name "example-" = true)
    (h3 : pySplitColon r.image_uri = [n, t])
    (h4 : cfg.skipImageCheck = true)
    (h5 : strStartsWith r.working_directory working_dir_pre = true)
    (h6 : pyReplaceDrop r.working_directory working_dir_pre = d)
    (h7 : cfg.pathExists (joinPath cfg.examplesDir d) = true)
    (h8 : r.git_repositories ≠ [])
    (h9 : r.git_repositories.all (fun repo => repo.has_path) = true)
    (h10 : (r.jupyter_server <|> r.deployment <|> r.job <|> r.rstudio_server) =
      some w)
    (h11 : cfg.instanceTypeOptions.contains w.instance_type = true)
    (h12 : r.dask_cluster = some dc)
    (h13 : dc.num_workers > 3) :
    validate_recipe cfg r d = .error (.validationError .tooManyWorkers) ∧
    hasSubstr (VErr.message .tooManyWorkers) "should not be more than 3 workers" =
      true := by
  refine ⟨?_, by decide⟩
  rw [validate_recipe_reduce cfg r d n t h1 h2 h3 h4 h5 h6 h7 h8 h9, h10]
  have h11m : w.instance_type ∈ cfg.instanceTypeOptions := by simpa using h11
  rw [show checkInstanceType cfg (some w) = .ok () from by
    simp [checkInstanceType, h11m]]
  simp only [Except.bind]
  unfold checkDask
  rw [h12]
  simp [h13]

/-- Closed witness for `dask_workers_spec`: four workers raise the
too-many-workers error even though the worker instance type also
mismatches the workload's. -/
theorem dask_workers_spec_witness :
    validate_recipe cfgFix
      { recipeFix with
        dask_cluster := some { num_workers := 4, worker := { instance_type := "zzz" } } }
      "my-example" =
      .error (.validationError .tooManyWorkers) ∧
    hasSubstr (VErr.message .tooManyWorkers) "should not be more than 3 workers" =
      true :=
  dask_workers_spec cfgFix
    { recipeFix with
      dask_cluster := some { num_workers := 4, worker := { instance_type := "zzz" } } }
    "my-example" "img" "v1" { instance_type := "medium", has_disk_space := true }
    { num_workers := 4, worker := { instance_type := "zzz" } }
    rfl (by decide) rfl rfl (by decide) rfl rfl (by decide) (by decide) rfl rfl rfl
    (by decide)

theorem strDataAppend (a b : String) : (a ++ b).data = a.data ++ b.data := rfl

/-- The two lint messages are distinct for every file name (their fixed
leading texts differ at index 6). -/
theorem warn_ne_delayed (fn : String) : warnFilterMsg fn ≠ delayedMsg fn := by
  intro h
  have hd := congrArg String.data h
  simp only [warnFilterMsg, delayedMsg, strDataAppend, List.append_assoc] at hd
  have h6 := congrArg (fun l => l[6]?) hd
  simp only at h6
  rw [List.getElem?_append_left (by decide), List.getElem?_append_left (by decide)]
    at h6
  exact absurd h6 (by decide)

/-- The occurrence test the claim states: the joined source contains
`@delayed` at some position NOT immediately preceded by `dask.`;
`before` accumulates the text already scanned. -/
def hasBareDelayed (before s : List Char) : Bool :=
  match s with
  | [] => false
  | c :: rest =>
      ("@delayed".data.isPrefixOf s && !("dask.".data.isSuffixOf before)) ||
        hasBareDelayed (before ++ [c]) rest

theorem hasBareDelayed_implies (s : List Char) :
    ∀ before : List Char, hasBareDelayed before s = true →
      hasSubstrL s ("@delayed".data) = true := by
  induction s with
  | nil => intro before h; simp [hasBareDelayed] at h
  | cons c rest ih =>
    intro before h
    simp only [hasBareDelayed, Bool.or_eq_true, Bool.and_eq_true] at h
    simp only [hasSubstrL, Bool.or_eq_true]
    rcases h with ⟨hp, _⟩ | hr
    · exact Or.inl hp
    · exact Or.inr (ih (before ++ [c]) hr)

/-- C9: whenever the joined source of a code cell contains `@delayed`
not immediately preceded by `dask.`, `_lint_python_cell` returns the
decorator-rule error exactly once; and when the source contains
`@dask.delayed` but no bare `@delayed` substring at all, it returns the
decorator-rule error zero times.  (The rule is a plain substring test:
an occurrence of `@delayed` preceded by `dask.` would also fire it,
which is the known false-positive source the spec flags.) -/
theorem lint_delayed_spec (file_name : String) (code_lines : List String) :
    (hasBareDelayed [] (String.join code_lines).data = true →
      (_lint_python_cell file_name code_lines).count (delayedMsg file_name) = 1) ∧
    (hasSubstr (String.join code_lines) "@dask.delayed" = true →
      hasSubstr (String.join code_lines) "@delayed" = false →
      (_lint_python_cell file_name code_lines).count (delayedMsg file_name) = 0) := by
  have hne : (warnFilterMsg file_name == delayedMsg file_name) = false := by
    exact beq_eq_false_iff_ne.mpr (warn_ne_delayed file_name)
  constructor
  · intro h
    have hd : hasSubstr (String.join code_lines) "@delayed" = true :=
      hasBareDelayed_implies (String.join code_lines).data [] h
    by_cases hw : hasSubstr (String.join code_lines) "warnings.filter" = true
    · simp [_lint_python_cell, hd, hw, List.count_append, List.count_cons, hne]
    · rw [Bool.not_eq_true] at hw
      simp [_lint_python_cell, hd, hw, List.count_append, List.count_cons]
  · intro _ hd
    by_cases hw : hasSubstr (String.join code_lines) "warnings.filter" = true
    · simp [_lint_python_cell, hd, hw, List.count_cons, hne]
    · rw [Bool.not_eq_true] at hw
      simp [_lint_python_cell, hd, hw]

/-- Closed witness for `lint_delayed_spec`: a cell using a bare
`@delayed` yields the decorator error once; a cell using only
`@dask.delayed` yields it zero times. -/
theorem lint_delayed_spec_witness :
    (_lint_python_cell "nb.ipynb" ["@delayed\n", "def f(x): return x"]).count
      (delayedMsg "nb.ipynb") = 1 ∧
    (_lint_python_cell "nb.ipynb" ["import dask\n", "@dask.delayed\n"]).count
      (delayedMsg "nb.ipynb") = 0 :=
  ⟨(lint_delayed_spec "nb.ipynb" ["@delayed\n", "def f(x): return x"]).1 (by decide),
   (lint_delayed_spec "nb.ipynb" ["import dask\n", "@dask.delayed\n"]).2
     (by decide) (by decide)⟩

theorem strExt (a b : String) (h : a.data = b.data) : a = b := by
  cases a
  cases b
  exact congrArg String.mk h

theorem hasSubstr_decomp (pre pat suf : String) :
    hasSubstr (pre ++ pat ++ suf) pat = true := by
  unfold hasSubstr
  rw [strDataAppend, strDataAppend]
  exact hasSubstrL_of_parts pre.data pat.data suf.data

/-- C7: two templates with equal weights (and distinct titles) inside
ONE catalog produce exactly one uniqueness error, whose message
contains both colliding titles; and because the `weights` dict is reset
per catalog file, the same two templates split across two catalogs
produce no error at all. -/
theorem weight_uniqueness_spec (cfg : Config) (dirs : List String)
    (t1 t2 : Template)
    (ht : t1.title ≠ t2.title) (hw : t1.weight = t2.weight)
    (h1 : dirs.contains (templateExampleDir t1.recipe_path) = true)
    (h2 : dirs.contains (templateExampleDir t2.recipe_path) = true) :
    processCatalog cfg dirs [t1, t2] = [weightMsg t2.weight t2.title [t1.title]] ∧
    hasSubstr (weightMsg t2.weight t2.title [t1.title]) t1.title = true ∧
    hasSubstr (weightMsg t2.weight t2.title [t1.title]) t2.title = true ∧
    catalogPhase cfg dirs [[t1], [t2]] = [] := by
  have h1m : templateExampleDir t1.recipe_path ∈ dirs := by simpa using h1
  have h2m : templateExampleDir t2.recipe_path ∈ dirs := by simpa using h2
  refine ⟨?_, ?_, ?_, ?_⟩
  · simp [processCatalog, processTemplateList, processTemplate, dictSet,
      hw, h1m, h2m]
  · have e1 : weightMsg t2.weight t2.title [t1.title] =
        ("Weight (" ++ toString t2.weight ++ ") for \x27" ++ t2.title ++
          "\x27 is non-unique. It matches [\x27") ++ t1.title ++ "\x27]." := by
      apply strExt
      simp [weightMsg, pyStrListRepr, pyStrListReprAux, strDataAppend,
        List.append_assoc]
    rw [e1]
    exact hasSubstr_decomp _ _ _
  · have e2 : weightMsg t2.weight t2.title [t1.title] =
        ("Weight (" ++ toString t2.weight ++ ") for \x27") ++ t2.title ++
          ("\x27 is non-unique. It matches [\x27" ++ t1.title ++ "\x27].") := by
      apply strExt
      simp [weightMsg, pyStrListRepr, pyStrListReprAux, strDataAppend,
        List.append_assoc]
    rw [e2]
    exact hasSubstr_decomp _ _ _
  · simp [catalogPhase, processCatalog, processTemplateList, processTemplate,
      dictSet, h1m, h2m]

/-- Closed witness for `weight_uniqueness_spec` at two concrete
templates with equal weight 4. -/
theorem weight_uniqueness_spec_witness :
    processCatalog cfgFix ["my-example"]
      [templateFix, { templateFix with title := "t-two" }] =
      [weightMsg 4 "t-two" ["t-one"]] ∧
    hasSubstr (weightMsg 4 "t-two" ["t-one"]) "t-one" = true ∧
    hasSubstr (weightMsg 4 "t-two" ["t-one"]) "t-two" = true ∧
    catalogPhase cfgFix ["my-example"]
      [[templateFix], [{ templateFix with title := "t-two" }]] = [] :=
  weight_uniqueness_spec cfgFix ["my-example"] templateFix
    { templateFix with title := "t-two" } (by decide) rfl (by decide) (by decide)
